import Mathlib

/-!
Verification development for the `AgenteKlug` repository.

The repository holds three near-duplicate Python files (`src/agent.py`,
`src/data_analysis_agent.py`, `src/app.py`), each defining a
`DataAnalysisAgent` class around a pandas dataframe, an LLM-backed agent
executor, and a hand-written keyword fallback for free-text queries.

This file shallowly embeds the hand-written logic of those files:
Python strings are `List Char`, Python exceptions are `Except (List Char)`,
the dataframe is an explicit column-major structure, and calls into the
pandas/matplotlib libraries are modelled by executable functions whose
output rendering is a canonical encoding (the claims never depend on the
exact layout pandas chooses when printing, only on which operation runs
and on what data).
-/

/-! ## Python string primitives -/

/-- A Python string, as the list of its characters. -/
def pyStr (s : String) : List Char := s.data

/-- Model of Python `str.lower` on a single character: ASCII `A`–`Z` and the
Latin-1 uppercase letters `À`–`Þ` (excluding `×`) map 32 codepoints up;
every other character is unchanged.  This covers every character appearing
in the repository's keyword tables and messages. -/
def pyCharLower (c : Char) : Char :=
  if ('A' ≤ c && c ≤ 'Z') || (('À' ≤ c && c ≤ 'Þ') && c != '×') then
    Char.ofNat (c.toNat + 32)
  else c

/-- Model of Python `str.lower`. -/
def pyLower (s : List Char) : List Char := s.map pyCharLower

/-- Model of the Python substring test `needle in hay` on strings. -/
def strContains (hay needle : List Char) : Bool :=
  match hay with
  | [] => needle.isEmpty
  | _ :: t => needle.isPrefixOf hay || strContains t needle

/-- Model of Python `any(word in q for word in kws)`. -/
def anyKw (kws : List (List Char)) (q : List Char) : Bool :=
  kws.any (fun w => strContains q w)

/-- Model of Python `str.split()`: split on maximal runs of whitespace,
dropping empty pieces.  Auxiliary: `acc` holds the characters of the word
currently being read, in reverse. -/
def splitWsAux : List Char → List Char → List (List Char)
  | [], [] => []
  | [], acc => [acc.reverse]
  | c :: rest, acc =>
    if c.isWhitespace then
      match acc with
      | [] => splitWsAux rest []
      | _ => acc.reverse :: splitWsAux rest []
    else splitWsAux rest (c :: acc)

/-- Model of Python `str.split()` with no separator argument. -/
def splitWs (s : List Char) : List (List Char) := splitWsAux s []

/-! ## The regex `\d+` and integer parsing -/

/-- Auxiliary for `findallDigits`: scan the text, `acc` holding the digits
of the run currently being read (in reverse) when inside a run. -/
def findallAux : List Char → Option (List Char) → List (List Char)
  | [], none => []
  | [], some acc => [acc.reverse]
  | c :: rest, none =>
    if c.isDigit then findallAux rest (some [c]) else findallAux rest none
  | c :: rest, some acc =>
    if c.isDigit then findallAux rest (some (c :: acc))
    else acc.reverse :: findallAux rest none

/-- Model of Python `re.findall(r'\d+', text)`: the list of maximal runs of
decimal digits of `text`, in order of occurrence. -/
def findallDigits (t : List Char) : List (List Char) := findallAux t none

/-- Model of Python `int` on a nonempty string of decimal digits. -/
def digitsToNat (ds : List Char) : Nat :=
  ds.foldl (fun n c => 10 * n + (c.toNat - 48)) 0

/-! ## The three copies of `_extract_number` -/

/-- `DataAnalysisAgent._extract_number` from `src/agent.py` (lines 172-178):
`numbers = re.findall(r'\d+', text); if numbers: return min(int(numbers[0]), 50);
return default`. -/
def extract_number (text : List Char) (default : Int) : Int :=
  match findallDigits text with
  | [] => default
  | ds :: _ => min (digitsToNat ds : Int) 50

/-- `DataAnalysisAgent._extract_number` from `src/data_analysis_agent.py`
(lines 342-348); textually identical to the copy in `src/agent.py`. -/
def extract_number_dana (text : List Char) (default : Int) : Int :=
  match findallDigits text with
  | [] => default
  | ds :: _ => min (digitsToNat ds : Int) 50

/-- `DataAnalysisAgent._extract_number` from `src/app.py` (lines 365-368):
`return min(int(numbers[0]), 100) if numbers else default` — note the clamp
is `100` here, not `50`. -/
def extract_number_app (text : List Char) (default : Int) : Int :=
  match findallDigits text with
  | [] => default
  | ds :: _ => min (digitsToNat ds : Int) 100

/-! ## Lemmas about the digit scanner -/

theorem findallAux_some_ne_nil (l : List Char) (acc : List Char) :
    findallAux l (some acc) ≠ [] := by
  induction l generalizing acc with
  | nil => simp [findallAux]
  | cons c rest ih =>
    by_cases h : c.isDigit <;> simp [findallAux, h, ih]

theorem findallDigits_eq_nil_iff (t : List Char) :
    findallDigits t = [] ↔ t.any Char.isDigit = false := by
  unfold findallDigits
  induction t with
  | nil => simp [findallAux]
  | cons c rest ih =>
    by_cases h : c.isDigit
    · simp [findallAux, h, findallAux_some_ne_nil]
    · simp [findallAux, h, ih]

/-! ## The dataframe model

Column-major model of a loaded pandas dataframe: each column has a name, a
pandas dtype and a list of cells; a missing value is `Cell.null`.  The
pandas rendering calls (`to_string`, `info`, `describe`, `corr`) are
modelled by canonical textual encodings: the claims below never depend on
the exact layout pandas prints, only on which operation runs and on what
data it runs. -/

inductive Cell where
  | null
  | intVal (n : Int)
  | strVal (s : List Char)
deriving DecidableEq

inductive DType where
  | int64
  | float64
  | object
deriving DecidableEq

/-- Model of Python `str(dtype)`. -/
def DType.render : DType → List Char
  | .int64 => pyStr "int64"
  | .float64 => pyStr "float64"
  | .object => pyStr "object"

/-- Whether `select_dtypes(include=['number'])` keeps a column of this dtype. -/
def DType.isNumeric : DType → Bool
  | .int64 => true
  | .float64 => true
  | .object => false

structure Column where
  name : List Char
  dtype : DType
  values : List Cell
deriving DecidableEq

structure DataFrame where
  cols : List Column
deriving DecidableEq

/-- Number of rows (`len(df)`, `df.shape[0]`). -/
def dfNrows (df : DataFrame) : Nat :=
  match df.cols with
  | [] => 0
  | c :: _ => c.values.length

/-- Model of `df[col].isnull().sum()`. -/
def nullCount (c : Column) : Nat :=
  c.values.countP (fun v => decide (v = Cell.null))

/-- Model of `df[col].nunique()`: distinct non-null values. -/
def nuniqueCount (c : Column) : Nat :=
  ((c.values.filter (fun v => !decide (v = Cell.null))).dedup).length

/-- Model of `df.head(n)`. -/
def dfHead (df : DataFrame) (n : Nat) : DataFrame :=
  ⟨df.cols.map (fun c => { c with values := c.values.take n })⟩

/-- Model of `df.tail(n)`. -/
def dfTail (df : DataFrame) (n : Nat) : DataFrame :=
  ⟨df.cols.map (fun c => { c with values := c.values.drop (c.values.length - n) })⟩

/-- Model of `df.select_dtypes(include=['number'])`. -/
def selectNumeric (df : DataFrame) : DataFrame :=
  ⟨df.cols.filter (fun c => c.dtype.isNumeric)⟩

/-- `sep.join(xs)`: concatenate the pieces with `sep` between them. -/
def joinSep (sep : List Char) (xs : List (List Char)) : List Char :=
  sep.intercalate xs

/-- Decimal rendering of a natural number. -/
def natChars (n : Nat) : List Char := (toString n).data

/-- Decimal rendering of an integer. -/
def intChars (n : Int) : List Char := (toString n).data

/-- Auxiliary for `natSepChars`: insert a comma before every later group of
three characters; operates on the reversed digit list. -/
def sepRev : List Char → Nat → List Char
  | [], _ => []
  | c :: rest, k =>
    (if k % 3 = 0 && k != 0 then [',', c] else [c]) ++ sepRev rest (k + 1)

/-- Model of Python format `f"{n:,}"`: decimal digits with thousands
separators. -/
def natSepChars (n : Nat) : List Char :=
  (sepRev (natChars n).reverse 0).reverse

/-- Canonical rendering of one cell (pandas shows missing values as `NaN`). -/
def Cell.render : Cell → List Char
  | .null => pyStr "NaN"
  | .intVal n => intChars n
  | .strVal s => s

/-- Canonical encoding of `df.to_string()`. -/
def dfToString (df : DataFrame) : List Char :=
  joinSep (pyStr "\n") (df.cols.map (fun c =>
    c.name ++ pyStr ": " ++ joinSep (pyStr " ") (c.values.map Cell.render)))

/-- Canonical encoding of the text `df.info(buf=...)` writes. -/
def dfInfoString (df : DataFrame) : List Char :=
  pyStr "RangeIndex: " ++ natChars (dfNrows df) ++ pyStr " entries, " ++
    natChars df.cols.length ++ pyStr " columns\n" ++
    joinSep (pyStr "\n") (df.cols.map (fun c =>
      c.name ++ pyStr "  " ++ natChars (c.values.length - nullCount c) ++
        pyStr " non-null  " ++ c.dtype.render))

/-- Canonical encoding of the statistics table printed by `df.describe()`. -/
def describeString (df : DataFrame) : List Char :=
  pyStr "describe(" ++ joinSep (pyStr ", ") (df.cols.map (fun c => c.name)) ++
    pyStr ")"

/-- Model of `df.describe(include='all')`: pandas raises
`ValueError("Cannot describe a DataFrame without columns")` when the
dataframe has no columns. -/
def dfDescribeAll (df : DataFrame) : Except (List Char) (List Char) :=
  if df.cols.isEmpty then
    .error (pyStr "Cannot describe a DataFrame without columns")
  else
    .ok (describeString df)

/-- Canonical encoding of `series.to_string()` for a name-to-count series. -/
def seriesString (ps : List (List Char × Nat)) : List Char :=
  joinSep (pyStr "\n") (ps.map (fun p => p.1 ++ pyStr "    " ++ natChars p.2))

/-- Canonical encoding of `df.dtypes.to_string()`. -/
def dtypesString (df : DataFrame) : List Char :=
  joinSep (pyStr "\n") (df.cols.map (fun c => c.name ++ pyStr "    " ++ c.dtype.render))

/-- The rows of the dataframe, for `df.duplicated()`. -/
def dfRows (df : DataFrame) : List (List (Option Cell)) :=
  (List.range (dfNrows df)).map (fun i => df.cols.map (fun c => c.values.get? i))

/-- Model of `df.duplicated().sum()`: rows minus distinct rows. -/
def dupCount (df : DataFrame) : Nat :=
  dfNrows df - (dfRows df).dedup.length

/-- Canonical encoding of `numeric.corr().to_string()`. -/
def corrString (df : DataFrame) : List Char :=
  pyStr "corr(" ++ joinSep (pyStr ", ") (df.cols.map (fun c => c.name)) ++
    pyStr ")"

/-- Canonical encoding of `dict(self.df.dtypes.value_counts())` as it appears
inside the f-string context the agent builds. -/
def dtypeCountsString (df : DataFrame) : List Char :=
  pyStr "dtypes(" ++
    joinSep (pyStr ", ") ((df.cols.map (fun c => c.dtype.render)).dedup) ++
    pyStr ")"

/-! ## Keyword tables of the fallback classifiers -/

def headKws : List (List Char) :=
  [pyStr "primeiras", pyStr "first", pyStr "head", pyStr "início"]

def tailKws : List (List Char) :=
  [pyStr "últimas", pyStr "last", pyStr "tail", pyStr "final"]

def colsKws : List (List Char) := [pyStr "colunas", pyStr "columns"]

def shapeKws : List (List Char) :=
  [pyStr "shape", pyStr "tamanho", pyStr "dimensões"]

def infoKws : List (List Char) :=
  [pyStr "info", pyStr "informações", pyStr "resumo"]

def nullKws : List (List Char) :=
  [pyStr "nulos", pyStr "null", pyStr "missing", pyStr "vazios"]

def dtypeKws : List (List Char) := [pyStr "tipos", pyStr "types", pyStr "dtypes"]

/-- Keyword tables of `_handle_basic_queries` in `src/app.py`; its head/tail
tables lack `início`/`final` and its nulls table lacks `vazios`. -/
def appHeadKws : List (List Char) := [pyStr "primeiras", pyStr "first", pyStr "head"]

def appTailKws : List (List Char) := [pyStr "últimas", pyStr "last", pyStr "tail"]

def appShapeKws : List (List Char) :=
  [pyStr "tamanho", pyStr "shape", pyStr "dimensões"]

def appNullKws : List (List Char) :=
  [pyStr "nulos", pyStr "null", pyStr "missing"]

def dupKws : List (List Char) := [pyStr "duplicadas", pyStr "duplicate"]

/-! ## Branch messages of `_handle_simple_queries` (agent.py and
data_analysis_agent.py share every branch message except the empty-nulls
message, the unrecognised-query message and the exception prefix) -/

/-- Canonical stand-in for `str(e)` of the `AttributeError` Python raises
when a dataframe operation is invoked on `self.df = None`. -/
def attrErrMsg : List Char :=
  pyStr "\x27NoneType\x27 object has no attribute"

def agentHeadMsg (df : DataFrame) (n : Int) : List Char :=
  pyStr "Primeiras " ++ intChars n ++ pyStr " linhas do dataset:\n\n" ++
    dfToString (dfHead df n.toNat)

def agentTailMsg (df : DataFrame) (n : Int) : List Char :=
  pyStr "Últimas " ++ intChars n ++ pyStr " linhas do dataset:\n\n" ++
    dfToString (dfTail df n.toNat)

def agentColumnsMsg (df : DataFrame) : List Char :=
  pyStr "Colunas do dataset (" ++ natChars df.cols.length ++ pyStr " total):\n" ++
    joinSep (pyStr "\n") (df.cols.map (fun c =>
      pyStr "- " ++ c.name ++ pyStr ": " ++ c.dtype.render ++ pyStr " (" ++
        natChars (nullCount c) ++ pyStr " valores nulos)"))

def agentShapeMsg (df : DataFrame) : List Char :=
  pyStr "Dimensões do dataset: " ++ natChars (dfNrows df) ++ pyStr " linhas × " ++
    natChars df.cols.length ++ pyStr " colunas"

def agentInfoMsg (df : DataFrame) : List Char :=
  dfInfoString df ++
    (if (selectNumeric df).cols.isEmpty then [] else
      pyStr "\n\nEstatísticas das colunas numéricas:\n" ++
        describeString (selectNumeric df))

/-- The per-column null counts restricted to the columns with at least one
null (`null_counts[null_counts > 0]`). -/
def positiveNulls (df : DataFrame) : List (List Char × Nat) :=
  (df.cols.map (fun c => (c.name, nullCount c))).filter (fun p => decide (0 < p.2))

def agentNullsMsg (df : DataFrame) : List Char :=
  if (positiveNulls df).isEmpty then
    pyStr "✅ Não há valores nulos no dataset!"
  else
    pyStr "Valores nulos por coluna:\n" ++ seriesString (positiveNulls df)

def danaNullsMsg (df : DataFrame) : List Char :=
  if (positiveNulls df).isEmpty then
    pyStr "Não há valores nulos no dataset!"
  else
    pyStr "Valores nulos por coluna:\n" ++ seriesString (positiveNulls df)

def agentDtypesMsg (df : DataFrame) : List Char :=
  pyStr "Tipos de dados:\n" ++ dtypesString df

def agentHelpMsg : List Char :=
  pyStr "❌ Não foi possível processar a consulta avançada devido a limitações técnicas.\n\nConsultas básicas disponíveis:\n- \x27primeiras 10 linhas\x27\n- \x27colunas do dataset\x27\n- \x27informações do dataset\x27\n- \x27valores nulos\x27\n- \x27estatísticas descritivas\x27\n- \x27tipos de dados\x27"

def danaHelpMsg : List Char :=
  pyStr "Consulta não reconhecida pelo sistema simplificado.\n\nConsultas básicas disponíveis:\n- \x27primeiras 10 linhas\x27\n- \x27colunas do dataset\x27\n- \x27informações do dataset\x27\n- \x27valores nulos\x27\n- \x27estatísticas descritivas\x27\n- \x27tipos de dados\x27"

/-! ## `_handle_simple_queries` from `src/agent.py` (lines 108-170)

The `try:` body is embedded as an `Except`-valued function
(`simple_queries_body`); the surrounding `except Exception` is the match in
`handle_simple_queries`.  `self.df` may be `None` (load failure after a
successful earlier `pd.read_csv`, or before any load), in which case every
branch that touches the dataframe raises `AttributeError`, while the final
`else` branch returns the help text without touching `self.df`. -/

def simple_queries_body (odf : Option DataFrame) (q : List Char) :
    Except (List Char) (List Char) :=
  if anyKw headKws (pyLower q) then
    match odf with
    | none => .error attrErrMsg
    | some df => .ok (agentHeadMsg df (extract_number q 5))
  else if anyKw tailKws (pyLower q) then
    match odf with
    | none => .error attrErrMsg
    | some df => .ok (agentTailMsg df (extract_number q 5))
  else if anyKw colsKws (pyLower q) then
    match odf with
    | none => .error attrErrMsg
    | some df => .ok (agentColumnsMsg df)
  else if anyKw shapeKws (pyLower q) then
    match odf with
    | none => .error attrErrMsg
    | some df => .ok (agentShapeMsg df)
  else if anyKw infoKws (pyLower q) then
    match odf with
    | none => .error attrErrMsg
    | some df => .ok (agentInfoMsg df)
  else if anyKw nullKws (pyLower q) then
    match odf with
    | none => .error attrErrMsg
    | some df => .ok (agentNullsMsg df)
  else if anyKw dtypeKws (pyLower q) then
    match odf with
    | none => .error attrErrMsg
    | some df => .ok (agentDtypesMsg df)
  else if strContains (pyLower q) (pyStr "describe") ||
      strContains (pyLower q) (pyStr "estatísticas") then
    match odf with
    | none => .error attrErrMsg
    | some df =>
      match dfDescribeAll df with
      | .ok s => .ok (pyStr "Estatísticas descritivas:\n" ++ s)
      | .error e => .error e
  else .ok agentHelpMsg

/-- `DataAnalysisAgent._handle_simple_queries` from `src/agent.py`. -/
def handle_simple_queries (odf : Option DataFrame) (q : List Char) : List Char :=
  match simple_queries_body odf q with
  | .ok s => s
  | .error e => pyStr "❌ Erro ao processar consulta básica: " ++ e

/-! ## `_handle_simple_queries` from `src/data_analysis_agent.py`
(lines 278-340): same branch structure, de-emojified messages. -/

def simple_queries_body_dana (odf : Option DataFrame) (q : List Char) :
    Except (List Char) (List Char) :=
  if anyKw headKws (pyLower q) then
    match odf with
    | none => .error attrErrMsg
    | some df => .ok (agentHeadMsg df (extract_number_dana q 5))
  else if anyKw tailKws (pyLower q) then
    match odf with
    | none => .error attrErrMsg
    | some df => .ok (agentTailMsg df (extract_number_dana q 5))
  else if anyKw colsKws (pyLower q) then
    match odf with
    | none => .error attrErrMsg
    | some df => .ok (agentColumnsMsg df)
  else if anyKw shapeKws (pyLower q) then
    match odf with
    | none => .error attrErrMsg
    | some df => .ok (agentShapeMsg df)
  else if anyKw infoKws (pyLower q) then
    match odf with
    | none => .error attrErrMsg
    | some df => .ok (agentInfoMsg df)
  else if anyKw nullKws (pyLower q) then
    match odf with
    | none => .error attrErrMsg
    | some df => .ok (danaNullsMsg df)
  else if anyKw dtypeKws (pyLower q) then
    match odf with
    | none => .error attrErrMsg
    | some df => .ok (agentDtypesMsg df)
  else if strContains (pyLower q) (pyStr "describe") ||
      strContains (pyLower q) (pyStr "estatísticas") then
    match odf with
    | none => .error attrErrMsg
    | some df =>
      match dfDescribeAll df with
      | .ok s => .ok (pyStr "Estatísticas descritivas:\n" ++ s)
      | .error e => .error e
  else .ok danaHelpMsg

/-- `DataAnalysisAgent._handle_simple_queries` from
`src/data_analysis_agent.py`. -/
def handle_simple_queries_dana (odf : Option DataFrame) (q : List Char) :
    List Char :=
  match simple_queries_body_dana odf q with
  | .ok s => s
  | .error e => pyStr "Erro ao processar consulta básica: " ++ e

/-! ## `_handle_basic_queries` from `src/app.py` (lines 299-363) -/

def appHeadMsg (df : DataFrame) (n : Int) : List Char :=
  pyStr "Primeiras " ++ intChars n ++ pyStr " linhas:\n\n" ++
    dfToString (dfHead df n.toNat)

def appTailMsg (df : DataFrame) (n : Int) : List Char :=
  pyStr "Últimas " ++ intChars n ++ pyStr " linhas:\n\n" ++
    dfToString (dfTail df n.toNat)

def appColumnsMsg (df : DataFrame) : List Char :=
  pyStr "Colunas (" ++ natChars df.cols.length ++ pyStr " total):\n" ++
    joinSep (pyStr "\n") (df.cols.map (fun c =>
      pyStr "- " ++ c.name ++ pyStr ": " ++ c.dtype.render ++ pyStr ", " ++
        natChars (nullCount c) ++ pyStr " nulos, " ++
        natChars (nuniqueCount c) ++ pyStr " únicos"))

def appShapeMsg (df : DataFrame) : List Char :=
  pyStr "Dimensões: " ++ natSepChars (dfNrows df) ++ pyStr " linhas × " ++
    natChars df.cols.length ++ pyStr " colunas"

def appInfoMsg (df : DataFrame) : List Char :=
  dfInfoString df ++
    (if (selectNumeric df).cols.isEmpty then [] else
      pyStr "\n\nEstatísticas numéricas:\n" ++ describeString (selectNumeric df))

def appNullsMsg (df : DataFrame) : List Char :=
  if (positiveNulls df).isEmpty then
    pyStr "Não há valores nulos no dataset"
  else
    pyStr "Valores nulos (" ++ natChars ((df.cols.map nullCount).sum) ++
      pyStr " total):\n\n" ++ seriesString (positiveNulls df)

def appDupMsg (df : DataFrame) : List Char :=
  if 0 < dupCount df then
    pyStr "Linhas duplicadas: " ++ natChars (dupCount df)
  else
    pyStr "Não há linhas duplicadas"

def appCorrMsg (df : DataFrame) : List Char :=
  if 2 ≤ (selectNumeric df).cols.length then
    pyStr "Matriz de correlação:\n\n" ++ corrString (selectNumeric df)
  else
    pyStr "Precisa de pelo menos 2 colunas numéricas para correlação"

def appHelpMsg : List Char :=
  pyStr "Consultas básicas disponíveis:\n- primeiras N linhas\n- últimas N linhas  \n- colunas / informações das colunas\n- tamanho / dimensões\n- informações completas / resumo\n- estatísticas / describe\n- valores nulos\n- linhas duplicadas\n- correlação (para colunas numéricas)\n\nPara análises avançadas com IA, configure a chave OPENAI_API_KEY."

/-- The `try:` body of `_handle_basic_queries` in `src/app.py`.  `run_query`
only reaches it with a loaded dataframe, so it takes a `DataFrame` directly.
Note the branch order differs from the other two files: `describe` comes
before `nulos`, and two extra branches (`duplicadas`, `correlação`) follow. -/
def basic_queries_body (df : DataFrame) (q : List Char) :
    Except (List Char) (List Char) :=
  if anyKw appHeadKws (pyLower q) then
    .ok (appHeadMsg df (extract_number_app q 5))
  else if anyKw appTailKws (pyLower q) then
    .ok (appTailMsg df (extract_number_app q 5))
  else if anyKw colsKws (pyLower q) then
    .ok (appColumnsMsg df)
  else if anyKw appShapeKws (pyLower q) then
    .ok (appShapeMsg df)
  else if anyKw infoKws (pyLower q) then
    .ok (appInfoMsg df)
  else if strContains (pyLower q) (pyStr "describe") ||
      strContains (pyLower q) (pyStr "estatísticas") then
    match dfDescribeAll df with
    | .ok s => .ok (pyStr "Estatísticas descritivas:\n\n" ++ s)
    | .error e => .error e
  else if anyKw appNullKws (pyLower q) then
    .ok (appNullsMsg df)
  else if anyKw dupKws (pyLower q) then
    .ok (appDupMsg df)
  else if strContains (pyLower q) (pyStr "correlação") ||
      strContains (pyLower q) (pyStr "correlation") then
    .ok (appCorrMsg df)
  else .ok appHelpMsg

/-- `DataAnalysisAgent._handle_basic_queries` from `src/app.py`. -/
def handle_basic_queries (df : DataFrame) (q : List Char) : List Char :=
  match basic_queries_body df q with
  | .ok s => s
  | .error e => pyStr "Erro ao processar consulta básica: " ++ e

/-! ## The column resolvers -/

/-- The second phase of `_find_column_in_query`
(`src/data_analysis_agent.py` lines 87-94): walk the words of the lowered
query; after each marker word `coluna`/`da`/`de`/`column` that is not last,
look for a column whose lowered name equals the following word. -/
def findColTokenAux (df : DataFrame) : List (List Char) → Option (List Char)
  | [] => none
  | [_] => none
  | w :: next :: rest =>
    if w = pyStr "coluna" ∨ w = pyStr "da" ∨ w = pyStr "de" ∨ w = pyStr "column" then
      match df.cols.find? (fun c => decide (pyLower c.name = next)) with
      | some c => some c.name
      | none => findColTokenAux df (next :: rest)
    else findColTokenAux df (next :: rest)

/-- `DataAnalysisAgent._find_column_in_query` from
`src/data_analysis_agent.py` (lines 78-96): first column whose lowered name
is a substring of the lowered query; otherwise the token-marker phase;
otherwise `None`. -/
def find_column_in_query (df : DataFrame) (q : List Char) : Option (List Char) :=
  match df.cols.find? (fun c => strContains (pyLower q) (pyLower c.name)) with
  | some c => some c.name
  | none => findColTokenAux df (splitWs (pyLower q))

/-- `DataAnalysisAgent._find_column` from `src/app.py` (lines 203-208):
only the substring phase. -/
def find_column (df : DataFrame) (q : List Char) : Option (List Char) :=
  (df.cols.find? (fun c => strContains (pyLower q) (pyLower c.name))).map
    (fun c => c.name)

/-! ## Agent state and the three `run_query` methods

The LLM call `self.agent_executor.invoke({"input": ...})` is an external
effect; it is passed in as an oracle `invoke`, returning either the
`"output"` entry of the result dict (`none` when the key is absent) or a
raised exception. -/

structure AgentState where
  df : Option DataFrame
  agent_executor : Option Unit
  memory : List (List Char)
deriving DecidableEq

def notInitMsg : List Char :=
  pyStr "❌ Agente não inicializado. Por favor, carregue um CSV primeiro."

def notInitMsgDana : List Char :=
  pyStr "Agente não inicializado. Por favor, carregue um CSV primeiro."

def noRespMsg : List Char := pyStr "Sem resposta disponível."

def noRespMsgApp : List Char := pyStr "Sem resposta disponível"

def noDatasetMsgApp : List Char :=
  pyStr "Nenhum dataset carregado. Faça upload de um arquivo CSV primeiro."

def rateLimitMsg : List Char :=
  pyStr "Limite de requisições atingido na API OpenAI. Aguarde alguns segundos e tente novamente."

def invalidKeyMsg : List Char :=
  pyStr "Chave da API OpenAI inválida. Verifique a configuração no Render Dashboard."

def quotaMsg : List Char :=
  pyStr "Cota da API OpenAI esgotada. Adicione créditos em platform.openai.com/account/billing"

/-- The dataset-context f-string `run_query` builds around the user query in
`src/agent.py` and (identically) in `src/data_analysis_agent.py`. -/
def enhancedQuery (df : DataFrame) (q : List Char) : List Char :=
  pyStr "\nDataset Info:\n- Total de linhas: " ++ natChars (dfNrows df) ++
    pyStr "\n- Total de colunas: " ++ natChars df.cols.length ++
    pyStr "\n- Colunas disponíveis: " ++
    joinSep (pyStr ", ") ((df.cols.map (fun c => c.name)).take 10) ++
    (if 10 < df.cols.length then pyStr "..." else []) ++
    pyStr "\n- Tipos de dados: " ++ dtypeCountsString df ++
    pyStr "\n\nConsulta do usuário: " ++ q ++
    pyStr "\n\nPor favor, responda de forma clara e concisa.\n"

/-- The dataset-context f-string of `run_query` in `src/app.py`. -/
def contextApp (df : DataFrame) (q : List Char) : List Char :=
  pyStr "\nDataset carregado:\n- Linhas: " ++ natSepChars (dfNrows df) ++
    pyStr "\n- Colunas: " ++ natChars df.cols.length ++
    pyStr "\n- Nomes das colunas: " ++
    joinSep (pyStr ", ") ((df.cols.map (fun c => c.name)).take 12) ++
    (if 12 < df.cols.length then pyStr "..." else []) ++
    pyStr "\n- Tipos: " ++ dtypeCountsString df ++
    pyStr "\n\nConsulta do usuário: " ++ q ++
    pyStr "\n\nResponda de forma clara, direta e estruturada. Se fizer cálculos, mostre os resultados.\n"

/-- `DataAnalysisAgent.run_query` from `src/agent.py` (lines 79-106).  When
`self.agent_executor` is set but `self.df` is `None`, building the context
f-string raises inside the `try:` (before `invoke` runs) and the `except`
falls back to `_handle_simple_queries` with the original query. -/
def run_query (st : AgentState)
    (invoke : List Char → Except (List Char) (Option (List Char)))
    (q : List Char) : List Char :=
  match st.agent_executor with
  | none => notInitMsg
  | some _ =>
    match st.df with
    | none => handle_simple_queries none q
    | some df =>
      match invoke (enhancedQuery df q) with
      | .ok out => out.getD noRespMsg
      | .error _ => handle_simple_queries (some df) q

/-- `DataAnalysisAgent.run_query` from `src/data_analysis_agent.py`
(lines 249-276); same structure, un-emojified refusal message. -/
def run_query_dana (st : AgentState)
    (invoke : List Char → Except (List Char) (Option (List Char)))
    (q : List Char) : List Char :=
  match st.agent_executor with
  | none => notInitMsgDana
  | some _ =>
    match st.df with
    | none => handle_simple_queries_dana none q
    | some df =>
      match invoke (enhancedQuery df q) with
      | .ok out => out.getD noRespMsg
      | .error _ => handle_simple_queries_dana (some df) q

/-- `DataAnalysisAgent.run_query` from `src/app.py` (lines 251-297): checks
the dataframe first, uses the basic-queries fallback when the agent executor
was never initialised, and classifies the exception text otherwise. -/
def run_query_app (st : AgentState)
    (invoke : List Char → Except (List Char) (Option (List Char)))
    (q : List Char) : List Char :=
  match st.df with
  | none => noDatasetMsgApp
  | some df =>
    match st.agent_executor with
    | none => handle_basic_queries df q
    | some _ =>
      match invoke (contextApp df q) with
      | .ok out => out.getD noRespMsgApp
      | .error e =>
        if strContains (pyLower e) (pyStr "rate limit") then rateLimitMsg
        else if strContains (pyLower e) (pyStr "invalid api key") then invalidKeyMsg
        else if strContains (pyLower e) (pyStr "insufficient_quota") then quotaMsg
        else handle_basic_queries df q

/-! ## The dispatch decision of the fallback classifiers

`SimpleOp` names the canned operations reachable through the keyword
fallbacks of the three files; `classifyAgent`/`classifyApp` record which
branch of the `if/elif` chain fires for a query, and
`renderAgentOp`/`renderAppOp` are the corresponding branch bodies.  The
theorems below prove that the handlers factor through them. -/

inductive SimpleOp where
  | headRows (n : Int)
  | tailRows (n : Int)
  | columnsOp
  | shapeOp
  | infoOp
  | nullsOp
  | dtypesOp
  | describeOp
  | duplicatesOp
  | correlationOp
  | helpOp
deriving DecidableEq

/-- The branch selected by `_handle_simple_queries` in `src/agent.py`
(identical keyword tables and order in `src/data_analysis_agent.py`):
head, tail, columns, shape, info, nulls, dtypes, describe, else help. -/
def classifyAgent (q : List Char) : SimpleOp :=
  if anyKw headKws (pyLower q) then .headRows (extract_number q 5)
  else if anyKw tailKws (pyLower q) then .tailRows (extract_number q 5)
  else if anyKw colsKws (pyLower q) then .columnsOp
  else if anyKw shapeKws (pyLower q) then .shapeOp
  else if anyKw infoKws (pyLower q) then .infoOp
  else if anyKw nullKws (pyLower q) then .nullsOp
  else if anyKw dtypeKws (pyLower q) then .dtypesOp
  else if strContains (pyLower q) (pyStr "describe") ||
      strContains (pyLower q) (pyStr "estatísticas") then .describeOp
  else .helpOp

/-- The branch selected by `_handle_basic_queries` in `src/app.py`:
head, tail, columns, shape, info, describe, nulls, duplicates, correlation,
else help. -/
def classifyApp (q : List Char) : SimpleOp :=
  if anyKw appHeadKws (pyLower q) then .headRows (extract_number_app q 5)
  else if anyKw appTailKws (pyLower q) then .tailRows (extract_number_app q 5)
  else if anyKw colsKws (pyLower q) then .columnsOp
  else if anyKw appShapeKws (pyLower q) then .shapeOp
  else if anyKw infoKws (pyLower q) then .infoOp
  else if strContains (pyLower q) (pyStr "describe") ||
      strContains (pyLower q) (pyStr "estatísticas") then .describeOp
  else if anyKw appNullKws (pyLower q) then .nullsOp
  else if anyKw dupKws (pyLower q) then .duplicatesOp
  else if strContains (pyLower q) (pyStr "correlação") ||
      strContains (pyLower q) (pyStr "correlation") then .correlationOp
  else .helpOp

/-- Branch bodies of `_handle_simple_queries` in `src/agent.py`, as a table
over `SimpleOp`.  The `duplicatesOp`/`correlationOp` rows are never produced
by `classifyAgent` (proved below); they are mapped to an error marker. -/
def renderAgentOp (odf : Option DataFrame) : SimpleOp → Except (List Char) (List Char)
  | .headRows n =>
    match odf with
    | none => .error attrErrMsg
    | some df => .ok (agentHeadMsg df n)
  | .tailRows n =>
    match odf with
    | none => .error attrErrMsg
    | some df => .ok (agentTailMsg df n)
  | .columnsOp =>
    match odf with
    | none => .error attrErrMsg
    | some df => .ok (agentColumnsMsg df)
  | .shapeOp =>
    match odf with
    | none => .error attrErrMsg
    | some df => .ok (agentShapeMsg df)
  | .infoOp =>
    match odf with
    | none => .error attrErrMsg
    | some df => .ok (agentInfoMsg df)
  | .nullsOp =>
    match odf with
    | none => .error attrErrMsg
    | some df => .ok (agentNullsMsg df)
  | .dtypesOp =>
    match odf with
    | none => .error attrErrMsg
    | some df => .ok (agentDtypesMsg df)
  | .describeOp =>
    match odf with
    | none => .error attrErrMsg
    | some df =>
      match dfDescribeAll df with
      | .ok s => .ok (pyStr "Estatísticas descritivas:\n" ++ s)
      | .error e => .error e
  | .duplicatesOp => .error (pyStr "unreachable branch")
  | .correlationOp => .error (pyStr "unreachable branch")
  | .helpOp => .ok agentHelpMsg

/-- Branch bodies of `_handle_basic_queries` in `src/app.py`, as a table
over `SimpleOp`.  The `dtypesOp` row is never produced by `classifyApp`
(proved below). -/
def renderAppOp (df : DataFrame) : SimpleOp → Except (List Char) (List Char)
  | .headRows n => .ok (appHeadMsg df n)
  | .tailRows n => .ok (appTailMsg df n)
  | .columnsOp => .ok (appColumnsMsg df)
  | .shapeOp => .ok (appShapeMsg df)
  | .infoOp => .ok (appInfoMsg df)
  | .nullsOp => .ok (appNullsMsg df)
  | .dtypesOp => .error (pyStr "unreachable branch")
  | .describeOp =>
    match dfDescribeAll df with
    | .ok s => .ok (pyStr "Estatísticas descritivas:\n\n" ++ s)
    | .error e => .error e
  | .duplicatesOp => .ok (appDupMsg df)
  | .correlationOp => .ok (appCorrMsg df)
  | .helpOp => .ok appHelpMsg

/-! ## State-passing form of the keyword fallback

The bodies of `_handle_simple_queries` and `_extract_number` contain no
assignment to `self`; the state-passing translation therefore returns, in
every branch, the state it received.  `handle_simple_queries_st` makes that
explicit so the frame claim is a statement rather than a typing accident. -/

def simple_queries_st_body (st : AgentState) (q : List Char) :
    Except (List Char) (List Char) × AgentState :=
  if anyKw headKws (pyLower q) then
    match st.df with
    | none => (.error attrErrMsg, st)
    | some df => (.ok (agentHeadMsg df (extract_number q 5)), st)
  else if anyKw tailKws (pyLower q) then
    match st.df with
    | none => (.error attrErrMsg, st)
    | some df => (.ok (agentTailMsg df (extract_number q 5)), st)
  else if anyKw colsKws (pyLower q) then
    match st.df with
    | none => (.error attrErrMsg, st)
    | some df => (.ok (agentColumnsMsg df), st)
  else if anyKw shapeKws (pyLower q) then
    match st.df with
    | none => (.error attrErrMsg, st)
    | some df => (.ok (agentShapeMsg df), st)
  else if anyKw infoKws (pyLower q) then
    match st.df with
    | none => (.error attrErrMsg, st)
    | some df => (.ok (agentInfoMsg df), st)
  else if anyKw nullKws (pyLower q) then
    match st.df with
    | none => (.error attrErrMsg, st)
    | some df => (.ok (agentNullsMsg df), st)
  else if anyKw dtypeKws (pyLower q) then
    match st.df with
    | none => (.error attrErrMsg, st)
    | some df => (.ok (agentDtypesMsg df), st)
  else if strContains (pyLower q) (pyStr "describe") ||
      strContains (pyLower q) (pyStr "estatísticas") then
    match st.df with
    | none => (.error attrErrMsg, st)
    | some df =>
      match dfDescribeAll df with
      | .ok s => (.ok (pyStr "Estatísticas descritivas:\n" ++ s), st)
      | .error e => (.error e, st)
  else (.ok agentHelpMsg, st)

/-- State-passing `_handle_simple_queries` from `src/agent.py`. -/
def handle_simple_queries_st (st : AgentState) (q : List Char) :
    List Char × AgentState :=
  match simple_queries_st_body st q with
  | (.ok s, st2) => (s, st2)
  | (.error e, st2) => (pyStr "❌ Erro ao processar consulta básica: " ++ e, st2)

def simple_queries_st_body_dana (st : AgentState) (q : List Char) :
    Except (List Char) (List Char) × AgentState :=
  if anyKw headKws (pyLower q) then
    match st.df with
    | none => (.error attrErrMsg, st)
    | some df => (.ok (agentHeadMsg df (extract_number_dana q 5)), st)
  else if anyKw tailKws (pyLower q) then
    match st.df with
    | none => (.error attrErrMsg, st)
    | some df => (.ok (agentTailMsg df (extract_number_dana q 5)), st)
  else if anyKw colsKws (pyLower q) then
    match st.df with
    | none => (.error attrErrMsg, st)
    | some df => (.ok (agentColumnsMsg df), st)
  else if anyKw shapeKws (pyLower q) then
    match st.df with
    | none => (.error attrErrMsg, st)
    | some df => (.ok (agentShapeMsg df), st)
  else if anyKw infoKws (pyLower q) then
    match st.df with
    | none => (.error attrErrMsg, st)
    | some df => (.ok (agentInfoMsg df), st)
  else if anyKw nullKws (pyLower q) then
    match st.df with
    | none => (.error attrErrMsg, st)
    | some df => (.ok (danaNullsMsg df), st)
  else if anyKw dtypeKws (pyLower q) then
    match st.df with
    | none => (.error attrErrMsg, st)
    | some df => (.ok (agentDtypesMsg df), st)
  else if strContains (pyLower q) (pyStr "describe") ||
      strContains (pyLower q) (pyStr "estatísticas") then
    match st.df with
    | none => (.error attrErrMsg, st)
    | some df =>
      match dfDescribeAll df with
      | .ok s => (.ok (pyStr "Estatísticas descritivas:\n" ++ s), st)
      | .error e => (.error e, st)
  else (.ok danaHelpMsg, st)

/-- State-passing `_handle_simple_queries` from `src/data_analysis_agent.py`. -/
def handle_simple_queries_st_dana (st : AgentState) (q : List Char) :
    List Char × AgentState :=
  match simple_queries_st_body_dana st q with
  | (.ok s, st2) => (s, st2)
  | (.error e, st2) => (pyStr "Erro ao processar consulta básica: " ++ e, st2)

/-! ## Infrastructure lemmas -/

theorem strContains_iff (hay needle : List Char) :
    strContains hay needle = true ↔ needle <:+: hay := by
  induction hay with
  | nil =>
    simp [strContains, List.isEmpty_iff]
  | cons c t ih =>
    simp only [strContains, Bool.or_eq_true, List.isPrefixOf_iff_prefix, ih,
      List.infix_cons_iff]

theorem mem_splitWsAux_infix (l : List Char) (acc w : List Char)
    (h : w ∈ splitWsAux l acc) : w <:+: acc.reverse ++ l := by
  induction l generalizing acc with
  | nil =>
    cases acc with
    | nil => simp [splitWsAux] at h
    | cons a as =>
      simp [splitWsAux] at h
      subst h
      exact ⟨[], [], by simp⟩
  | cons c rest ih =>
    by_cases hw : c.isWhitespace
    · cases acc with
      | nil =>
        simp [splitWsAux, hw] at h
        exact (ih [] h).trans ⟨[c], [], by simp⟩
      | cons a as =>
        simp [splitWsAux, hw] at h
        rcases h with h | h
        · subst h
          exact ⟨[], c :: rest, by simp⟩
        · exact (ih [] h).trans ⟨(a :: as).reverse ++ [c], [], by simp⟩
    · have h2 := ih (c :: acc) (by simpa [splitWsAux, hw] using h)
      simpa using h2

theorem mem_splitWs_infix (s w : List Char) (h : w ∈ splitWs s) : w <:+: s := by
  simpa using mem_splitWsAux_infix s [] w h

theorem findColTokenAux_mem (df : DataFrame) (ws : List (List Char))
    (name : List Char) (h : findColTokenAux df ws = some name) :
    ∃ c ∈ df.cols, c.name = name := by
  induction ws with
  | nil => cases h
  | cons w rest ih =>
    cases rest with
    | nil => cases h
    | cons next rest2 =>
      by_cases hm : w = pyStr "coluna" ∨ w = pyStr "da" ∨ w = pyStr "de" ∨
          w = pyStr "column"
      · rw [findColTokenAux, if_pos hm] at h
        cases hfind : df.cols.find? (fun c => decide (pyLower c.name = next)) with
        | none =>
          rw [hfind] at h
          exact ih h
        | some c =>
          rw [hfind] at h
          cases h
          exact ⟨c, List.mem_of_find?_eq_some hfind, rfl⟩
      · rw [findColTokenAux, if_neg hm] at h
        exact ih h

theorem findColTokenAux_eq_none (df : DataFrame) (ql : List Char)
    (h : ∀ c ∈ df.cols, strContains ql (pyLower c.name) = false)
    (ws : List (List Char)) (hws : ∀ w ∈ ws, w <:+: ql) :
    findColTokenAux df ws = none := by
  induction ws with
  | nil => rfl
  | cons w rest ih =>
    cases rest with
    | nil => rfl
    | cons next rest2 =>
      have hnext : ∀ w2 ∈ next :: rest2, w2 <:+: ql := by
        intro w2 hw2
        exact hws w2 (by simp [hw2])
      by_cases hm : w = pyStr "coluna" ∨ w = pyStr "da" ∨ w = pyStr "de" ∨
          w = pyStr "column"
      · rw [findColTokenAux, if_pos hm]
        have hfind : df.cols.find? (fun c => decide (pyLower c.name = next)) = none := by
          rw [List.find?_eq_none]
          intro c hc
          simp only [decide_eq_true_eq]
          intro heq
          have hin : next <:+: ql := hws next (by simp)
          have : strContains ql (pyLower c.name) = true :=
            (strContains_iff _ _).mpr (heq ▸ hin)
          rw [h c hc] at this
          cases this
        rw [hfind]
        exact ih hnext
      · rw [findColTokenAux, if_neg hm]
        exact ih hnext

theorem simple_body_eq_render (odf : Option DataFrame) (q : List Char) :
    simple_queries_body odf q = renderAgentOp odf (classifyAgent q) := by
  unfold simple_queries_body classifyAgent
  split_ifs <;> rfl

theorem basic_body_eq_render (df : DataFrame) (q : List Char) :
    basic_queries_body df q = renderAppOp df (classifyApp q) := by
  unfold basic_queries_body classifyApp
  split_ifs <;> rfl

theorem classifyAgent_not_extra (q : List Char) :
    classifyAgent q ≠ .duplicatesOp ∧ classifyAgent q ≠ .correlationOp := by
  unfold classifyAgent
  split_ifs <;> simp

theorem classifyApp_not_dtypes (q : List Char) :
    classifyApp q ≠ .dtypesOp := by
  unfold classifyApp
  split_ifs <;> simp

set_option maxHeartbeats 1000000 in
theorem simple_st_body_eq (st : AgentState) (q : List Char) :
    simple_queries_st_body st q = (simple_queries_body st.df q, st) := by
  unfold simple_queries_st_body simple_queries_body
  cases st.df with
  | none => split_ifs <;> rfl
  | some df =>
    split_ifs <;> try rfl
    all_goals (split <;> try rfl)
    all_goals (split <;> rfl)

set_option maxHeartbeats 1000000 in
theorem simple_st_body_dana_eq (st : AgentState) (q : List Char) :
    simple_queries_st_body_dana st q = (simple_queries_body_dana st.df q, st) := by
  unfold simple_queries_st_body_dana simple_queries_body_dana
  cases st.df with
  | none => split_ifs <;> rfl
  | some df =>
    split_ifs <;> try rfl
    all_goals (split <;> try rfl)
    all_goals (split <;> rfl)

/-! ## Concrete data for witnesses and counterexamples -/

def exCol : Column := ⟨pyStr "idade", .int64, [.intVal 31, .intVal 25, .null]⟩

def exampleDf : DataFrame :=
  ⟨[exCol,
    ⟨pyStr "nome", .object,
      [.strVal (pyStr "ana"), .strVal (pyStr "bia"), .strVal (pyStr "carla")]⟩]⟩

/-- A state with a loaded dataframe and an initialised agent executor. -/
def exSt : AgentState := ⟨some exampleDf, some (), []⟩

/-- A state with a loaded dataframe but no agent executor (e.g. after
`create_pandas_dataframe_agent` failed or no API key was configured). -/
def noExecSt : AgentState := ⟨some exampleDf, none, []⟩

/-- An LLM oracle that always raises. -/
def errInvoke : List Char → Except (List Char) (Option (List Char)) :=
  fun _ => .error (pyStr "boom")

/-- The operation set named by the spec sentence behind C3:
head/tail/describe/nulls/dtypes/shape, plus the no-keyword help message. -/
def c3ClaimedOps : SimpleOp → Bool
  | .headRows _ => true
  | .tailRows _ => true
  | .describeOp => true
  | .nullsOp => true
  | .dtypesOp => true
  | .shapeOp => true
  | .helpOp => true
  | _ => false

/-! ## The claims -/

/-- C1: for every query, when a dataframe is loaded, the agent executor is
initialised and the LLM invocation raises an exception, `run_query` (both in
`src/agent.py` and `src/data_analysis_agent.py`) returns exactly the result
of the keyword fallback applied to the original, unmodified query string. -/
theorem c1_run_query_fallback_on_exception (st : AgentState)
    (invoke : List Char → Except (List Char) (Option (List Char)))
    (q e : List Char) (df : DataFrame)
    (hdf : st.df = some df) (hex : st.agent_executor = some ())
    (hinv : invoke (enhancedQuery df q) = .error e) :
    run_query st invoke q = handle_simple_queries (some df) q ∧
    run_query_dana st invoke q = handle_simple_queries_dana (some df) q := by
  unfold run_query run_query_dana
  rw [hex, hdf]
  simp [hinv]

theorem c1_witness :
    run_query exSt errInvoke (pyStr "mostre os dados") =
      handle_simple_queries (some exampleDf) (pyStr "mostre os dados") ∧
    run_query_dana exSt errInvoke (pyStr "mostre os dados") =
      handle_simple_queries_dana (some exampleDf) (pyStr "mostre os dados") :=
  c1_run_query_fallback_on_exception exSt errInvoke (pyStr "mostre os dados")
    (pyStr "boom") exampleDf rfl rfl rfl

/-- C2: `_extract_number` (agent.py and data_analysis_agent.py copies)
returns the value of the first maximal digit run clamped to 50 when the text
contains a digit, and the default otherwise; the extracted count never
exceeds 50. -/
theorem c2_extract_number_clamp (t : List Char) (d : Int) :
    (t.any Char.isDigit = true →
      extract_number t d = min (digitsToNat ((findallDigits t).headD []) : Int) 50 ∧
      extract_number t d ≤ 50 ∧
      extract_number_dana t d = extract_number t d) ∧
    (t.any Char.isDigit = false →
      extract_number t d = d ∧ extract_number_dana t d = d) := by
  cases hf : findallDigits t with
  | nil =>
    have hno : t.any Char.isDigit = false := (findallDigits_eq_nil_iff t).mp hf
    constructor
    · intro h
      rw [h] at hno
      cases hno
    · intro _
      unfold extract_number extract_number_dana
      rw [hf]
      exact ⟨rfl, rfl⟩
  | cons ds l =>
    constructor
    · intro _
      unfold extract_number extract_number_dana
      rw [hf]
      exact ⟨rfl, min_le_right _ _, rfl⟩
    · intro h
      have h2 := (findallDigits_eq_nil_iff t).mpr h
      rw [hf] at h2
      cases h2

theorem c2_witness :
    extract_number (pyStr "primeiras 12 linhas") 7 ≤ 50 ∧
    extract_number (pyStr "sem numero") 7 = 7 :=
  ⟨((c2_extract_number_clamp (pyStr "primeiras 12 linhas") 7).1 (by decide)).2.1,
   ((c2_extract_number_clamp (pyStr "sem numero") 7).2 (by decide)).1⟩

/-- C3 counterexample: the query `"colunas"` selects the columns listing, an
operation outside the set head/tail/describe/nulls/dtypes/shape (plus help)
that the claim allows; the same happens in app.py (which also reaches
duplicate and correlation operations). -/
theorem c3_counterexample :
    classifyAgent (pyStr "colunas") = SimpleOp.columnsOp ∧
    classifyApp (pyStr "colunas") = SimpleOp.columnsOp ∧
    c3ClaimedOps SimpleOp.columnsOp = false := by
  refine ⟨by decide, by decide, rfl⟩

/-- C3 (amended): each keyword fallback factors through an explicit dispatch
table: in agent.py the reachable operations are exactly head, tail, columns,
shape, info, nulls, dtypes, describe or the help message; in app.py they are
head, tail, columns, shape, info, describe, nulls, duplicates, correlation or
the help message; no other operation is reachable. -/
theorem c3_fallback_dispatch (odf : Option DataFrame) (df : DataFrame)
    (q : List Char) :
    handle_simple_queries odf q =
      (match renderAgentOp odf (classifyAgent q) with
       | .ok s => s
       | .error e => pyStr "❌ Erro ao processar consulta básica: " ++ e) ∧
    handle_basic_queries df q =
      (match renderAppOp df (classifyApp q) with
       | .ok s => s
       | .error e => pyStr "Erro ao processar consulta básica: " ++ e) ∧
    classifyAgent q ≠ .duplicatesOp ∧ classifyAgent q ≠ .correlationOp ∧
    classifyApp q ≠ .dtypesOp := by
  refine ⟨?_, ?_, (classifyAgent_not_extra q).1, (classifyAgent_not_extra q).2,
    classifyApp_not_dtypes q⟩
  · unfold handle_simple_queries
    rw [simple_body_eq_render]
  · unfold handle_basic_queries
    rw [basic_body_eq_render]

/-- C4: in `_handle_simple_queries` (agent.py) exactly one branch fires: the
first matching one in the fixed textual order head, tail, columns, shape,
info, nulls, dtypes, describe; a query matching no branch gets the help
operation.  In particular a query containing both a head keyword and a tail
keyword is answered by the head operation (witness below). -/
theorem c4_first_match (q : List Char) :
    (anyKw headKws (pyLower q) = true →
      classifyAgent q = .headRows (extract_number q 5)) ∧
    (anyKw headKws (pyLower q) = false →
      anyKw tailKws (pyLower q) = true →
      classifyAgent q = .tailRows (extract_number q 5)) ∧
    (anyKw headKws (pyLower q) = false →
      anyKw tailKws (pyLower q) = false →
      anyKw colsKws (pyLower q) = true →
      classifyAgent q = .columnsOp) ∧
    (anyKw headKws (pyLower q) = false →
      anyKw tailKws (pyLower q) = false →
      anyKw colsKws (pyLower q) = false →
      anyKw shapeKws (pyLower q) = true →
      classifyAgent q = .shapeOp) ∧
    (anyKw headKws (pyLower q) = false →
      anyKw tailKws (pyLower q) = false →
      anyKw colsKws (pyLower q) = false →
      anyKw shapeKws (pyLower q) = false →
      anyKw infoKws (pyLower q) = true →
      classifyAgent q = .infoOp) ∧
    (anyKw headKws (pyLower q) = false →
      anyKw tailKws (pyLower q) = false →
      anyKw colsKws (pyLower q) = false →
      anyKw shapeKws (pyLower q) = false →
      anyKw infoKws (pyLower q) = false →
      anyKw nullKws (pyLower q) = true →
      classifyAgent q = .nullsOp) ∧
    (anyKw headKws (pyLower q) = false →
      anyKw tailKws (pyLower q) = false →
      anyKw colsKws (pyLower q) = false →
      anyKw shapeKws (pyLower q) = false →
      anyKw infoKws (pyLower q) = false →
      anyKw nullKws (pyLower q) = false →
      anyKw dtypeKws (pyLower q) = true →
      classifyAgent q = .dtypesOp) ∧
    (anyKw headKws (pyLower q) = false →
      anyKw tailKws (pyLower q) = false →
      anyKw colsKws (pyLower q) = false →
      anyKw shapeKws (pyLower q) = false →
      anyKw infoKws (pyLower q) = false →
      anyKw nullKws (pyLower q) = false →
      anyKw dtypeKws (pyLower q) = false →
      (strContains (pyLower q) (pyStr "describe") ||
        strContains (pyLower q) (pyStr "estatísticas")) = true →
      classifyAgent q = .describeOp) ∧
    (anyKw headKws (pyLower q) = false →
      anyKw tailKws (pyLower q) = false →
      anyKw colsKws (pyLower q) = false →
      anyKw shapeKws (pyLower q) = false →
      anyKw infoKws (pyLower q) = false →
      anyKw nullKws (pyLower q) = false →
      anyKw dtypeKws (pyLower q) = false →
      (strContains (pyLower q) (pyStr "describe") ||
        strContains (pyLower q) (pyStr "estatísticas")) = false →
      classifyAgent q = .helpOp) := by
  refine ⟨?_, ?_, ?_, ?_, ?_, ?_, ?_, ?_, ?_⟩ <;> intros <;> simp_all [classifyAgent]

theorem c4_witness :
    classifyAgent (pyStr "primeiras 3 e últimas linhas") =
      .headRows (extract_number (pyStr "primeiras 3 e últimas linhas") 5) ∧
    anyKw tailKws (pyLower (pyStr "primeiras 3 e últimas linhas")) = true ∧
    extract_number (pyStr "primeiras 3 e últimas linhas") 5 = 3 :=
  ⟨(c4_first_match (pyStr "primeiras 3 e últimas linhas")).1 (by decide),
   by decide, by decide⟩

/-- C5: `_find_column_in_query` returns the first column (in dataframe
order) whose lowered name is a substring of the lowered query; when no
column name occurs as a substring, the token-marker phase can never fire
(each candidate word is itself a substring of the lowered query), so the
resolver returns `None`. -/
theorem c5_find_column_resolution (df : DataFrame) (q : List Char) :
    (∀ c, df.cols.find? (fun c2 => strContains (pyLower q) (pyLower c2.name)) =
        some c → find_column_in_query df q = some c.name) ∧
    (df.cols.find? (fun c2 => strContains (pyLower q) (pyLower c2.name)) =
        none → find_column_in_query df q = none) := by
  constructor
  · intro c hc
    unfold find_column_in_query
    rw [hc]
  · intro hn
    unfold find_column_in_query
    rw [hn]
    apply findColTokenAux_eq_none
    · intro c hc
      have h2 := List.find?_eq_none.mp hn c hc
      simpa using h2
    · intro w hw
      exact mem_splitWs_infix (pyLower q) w hw

theorem c5_witness :
    find_column_in_query exampleDf (pyStr "histograma da idade") =
      some (pyStr "idade") :=
  (c5_find_column_resolution exampleDf (pyStr "histograma da idade")).1 exCol
    (by decide)

/-- C6 counterexample: with a dataframe loaded and no agent executor, the
`run_query` of `src/agent.py` returns the not-initialised refusal, not the
answer of the fallback classifier. -/
theorem c6_counterexample :
    run_query noExecSt errInvoke (pyStr "primeiras linhas") = notInitMsg ∧
    run_query noExecSt errInvoke (pyStr "primeiras linhas") ≠
      handle_simple_queries (some exampleDf) (pyStr "primeiras linhas") := by
  exact ⟨rfl, by decide⟩

/-- C6 (amended): with a dataframe loaded and no agent executor, the
`run_query` of `src/app.py` answers through the basic-queries fallback, while
the `run_query` of `src/agent.py` and of `src/data_analysis_agent.py` return
their not-initialised refusal messages instead. -/
theorem c6_no_executor_behaviour (st : AgentState) (df : DataFrame)
    (invoke : List Char → Except (List Char) (Option (List Char)))
    (q : List Char)
    (hdf : st.df = some df) (hex : st.agent_executor = none) :
    run_query_app st invoke q = handle_basic_queries df q ∧
    run_query st invoke q = notInitMsg ∧
    run_query_dana st invoke q = notInitMsgDana := by
  unfold run_query_app run_query run_query_dana
  rw [hdf, hex]
  exact ⟨rfl, rfl, rfl⟩

theorem c6_witness :
    run_query_app noExecSt errInvoke (pyStr "valores nulos") =
      handle_basic_queries exampleDf (pyStr "valores nulos") ∧
    run_query noExecSt errInvoke (pyStr "valores nulos") = notInitMsg ∧
    run_query_dana noExecSt errInvoke (pyStr "valores nulos") = notInitMsgDana :=
  c6_no_executor_behaviour noExecSt exampleDf errInvoke (pyStr "valores nulos")
    rfl rfl

/-- C7 counterexample: the three `_extract_number` copies are not
extensionally equal: on `"60 linhas"` the app.py copy returns 60 (clamp 100)
while the agent.py copy returns 50 (clamp 50). -/
theorem c7_counterexample :
    extract_number_app (pyStr "60 linhas") 5 ≠ extract_number (pyStr "60 linhas") 5 := by
  decide

/-- C7 (amended): the agent.py and data_analysis_agent.py copies of
`_extract_number` are extensionally equal; the app.py copy differs only in
clamping at 100 instead of 50 — it agrees whenever the text has no digit or
its first number is at most 50. -/
theorem c7_extract_copies (t : List Char) (d : Int) :
    extract_number t d = extract_number_dana t d ∧
    (findallDigits t = [] → extract_number_app t d = extract_number t d) ∧
    (∀ ds l, findallDigits t = ds :: l → (digitsToNat ds : Int) ≤ 50 →
      extract_number_app t d = extract_number t d) := by
  refine ⟨rfl, ?_, ?_⟩
  · intro h
    unfold extract_number extract_number_app
    rw [h]
  · intro ds l h hle
    unfold extract_number extract_number_app
    rw [h]
    change min ((digitsToNat ds : Int)) 100 = min ((digitsToNat ds : Int)) 50
    omega

theorem c7_witness :
    extract_number_app (pyStr "7 linhas") 3 = extract_number (pyStr "7 linhas") 3 :=
  (c7_extract_copies (pyStr "7 linhas") 3).2.2 (pyStr "7") [] (by decide) (by decide)

/-- C8: the three keyword fallbacks are total: the handler always returns a
string; when the branch body raises, the exception is caught and rendered
with the `Erro ao processar consulta básica` prefix of the respective file
(❌-prefixed in agent.py), never propagated. -/
theorem c8_fallback_total (odf : Option DataFrame) (df : DataFrame)
    (q : List Char) :
    ((∃ s, simple_queries_body odf q = .ok s ∧ handle_simple_queries odf q = s) ∨
     (∃ e, simple_queries_body odf q = .error e ∧
        handle_simple_queries odf q =
          pyStr "❌ Erro ao processar consulta básica: " ++ e)) ∧
    ((∃ s, simple_queries_body_dana odf q = .ok s ∧
        handle_simple_queries_dana odf q = s) ∨
     (∃ e, simple_queries_body_dana odf q = .error e ∧
        handle_simple_queries_dana odf q =
          pyStr "Erro ao processar consulta básica: " ++ e)) ∧
    ((∃ s, basic_queries_body df q = .ok s ∧ handle_basic_queries df q = s) ∨
     (∃ e, basic_queries_body df q = .error e ∧
        handle_basic_queries df q =
          pyStr "Erro ao processar consulta básica: " ++ e)) := by
  refine ⟨?_, ?_, ?_⟩
  · cases h : simple_queries_body odf q with
    | ok s =>
      exact Or.inl ⟨s, rfl, by unfold handle_simple_queries; rw [h]⟩
    | error e =>
      exact Or.inr ⟨e, rfl, by unfold handle_simple_queries; rw [h]⟩
  · cases h : simple_queries_body_dana odf q with
    | ok s =>
      exact Or.inl ⟨s, rfl, by unfold handle_simple_queries_dana; rw [h]⟩
    | error e =>
      exact Or.inr ⟨e, rfl, by unfold handle_simple_queries_dana; rw [h]⟩
  · cases h : basic_queries_body df q with
    | ok s =>
      exact Or.inl ⟨s, rfl, by unfold handle_basic_queries; rw [h]⟩
    | error e =>
      exact Or.inr ⟨e, rfl, by unfold handle_basic_queries; rw [h]⟩

/-- C9: the keyword fallback (including number extraction) leaves the agent
state unchanged: the state-passing translation of `_handle_simple_queries`
returns the state it received, in every branch of both copies, and its
answer component equals the pure handler on the held dataframe.  Every
canned operation reads the dataframe through `DataFrame`-valued functions
and returns only a string. -/
theorem c9_fallback_frame (st : AgentState) (q : List Char) :
    handle_simple_queries_st st q = (handle_simple_queries st.df q, st) ∧
    handle_simple_queries_st_dana st q = (handle_simple_queries_dana st.df q, st) := by
  constructor
  · unfold handle_simple_queries_st handle_simple_queries
    rw [simple_st_body_eq]
    cases simple_queries_body st.df q <;> rfl
  · unfold handle_simple_queries_st_dana handle_simple_queries_dana
    rw [simple_st_body_dana_eq]
    cases simple_queries_body_dana st.df q <;> rfl

/-- C10: both column resolvers return `None` or the name of an existing
column of the dataframe, so indexing the dataframe by a resolved name finds
a column. -/
theorem c10_resolver_sound (df : DataFrame) (q name : List Char) :
    (find_column_in_query df q = some name → ∃ c ∈ df.cols, c.name = name) ∧
    (find_column df q = some name → ∃ c ∈ df.cols, c.name = name) := by
  constructor
  · intro h
    unfold find_column_in_query at h
    cases hf : df.cols.find? (fun c => strContains (pyLower q) (pyLower c.name)) with
    | some c =>
      rw [hf] at h
      cases h
      exact ⟨c, List.mem_of_find?_eq_some hf, rfl⟩
    | none =>
      rw [hf] at h
      exact findColTokenAux_mem df (splitWs (pyLower q)) name h
  · intro h
    unfold find_column at h
    cases hf : df.cols.find? (fun c => strContains (pyLower q) (pyLower c.name)) with
    | some c =>
      rw [hf] at h
      simp at h
      exact ⟨c, List.mem_of_find?_eq_some hf, h⟩
    | none =>
      rw [hf] at h
      cases h

theorem c10_witness :
    ∃ c ∈ exampleDf.cols, c.name = pyStr "idade" :=
  (c10_resolver_sound exampleDf (pyStr "média da idade") (pyStr "idade")).1
    (by decide)
